import Mathlib

/-!
Shallow embedding of the locator-resolution and polling engine of the
selenium2 repository (src/browser_support/_base.py, waiting.py,
windowmanager.py), together with proofs of the specification claims.

Machine-level collaborators (the Selenium driver) are abstracted as an
explicit environment of oracle functions; all repository code is translated
function by function from the Python source.
-/

namespace Selenium2

/-- A resolved DOM element handle (Selenium `WebElement`), abstracted to the
two observations the engine makes of it: `tag_name` and `get_attribute`. -/
structure Element where
  tag_name : String
  attributes : List (String × String)
  deriving DecidableEq, Repr

/-- `WebElement.get_attribute(name)`: the attribute's value, or `None` when
the element does not carry the attribute. -/
def Element.get_attribute (e : Element) (name : String) : Option String :=
  (e.attributes.find? (fun p => p.1 == name)).map (fun p => p.2)

/-- A constraint value in `_get_tag_and_constraints`' table: either a single
string or a list of acceptable strings (Python `str` or `list`). -/
inductive ConstraintVal where
  | single (s : String)
  | several (l : List String)
  deriving DecidableEq, Repr

/-- Python `str.lower()`, character by character. -/
def pyLower (s : String) : String := String.mk (s.data.map Char.toLower)

/-- Python `c in s` for a single character. -/
def pyContainsChar (s : String) (c : Char) : Bool := s.data.contains c

/-- The per-constraint test inside `Base._filter`'s inner loop:
`element.get_attribute(name) in constraints[name]` for list-valued
constraints, `element.get_attribute(name) == constraints[name]` otherwise.
A `None` attribute value never equals a string and is never a member of a
list of strings. -/
def constraintMatches (e : Element) (c : String × ConstraintVal) : Bool :=
  match c.2 with
  | .several l =>
    match e.get_attribute c.1 with
    | some v => l.contains v
    | none => false
  | .single s => e.get_attribute c.1 == some s

/-- The per-element test of `Base._filter`: tag names must match after
lowering the element's tag, and when constraints are present at least one
named constraint must match (the Python loop appends on the first matching
constraint and breaks). -/
def elementPasses (e : Element) (tag : String) (constraints : List (String × ConstraintVal)) : Bool :=
  if pyLower e.tag_name == tag then
    if constraints.isEmpty then true
    else constraints.any (fun c => constraintMatches e c)
  else false

/-- `Base._filter(elements, tag, constraints)`: with `tag is None` the input
list is returned unchanged; otherwise elements failing the tag/constraint
test are dropped, preserving order. -/
def filterElements (elements : List Element) (tag : Option String) (constraints : List (String × ConstraintVal)) : List Element :=
  match tag with
  | none => elements
  | some t => elements.filter (fun e => elementPasses e t constraints)

/-- `Base._get_tag_and_constraints(tag)`: rewrite a semantic kind keyword into
a concrete tag name plus attribute constraints. -/
def get_tag_and_constraints (tag : Option String) : Option String × List (String × ConstraintVal) :=
  match tag with
  | none => (none, [])
  | some t0 =>
    let t1 := pyLower t0
    let t2 := if t1 == "link" then "a" else t1
    match t2 with
    | "partial link" => (some "a", [])
    | "image" => (some "img", [])
    | "list" => (some "select", [])
    | "radio button" => (some "input", [("type", ConstraintVal.single "radio")])
    | "checkbox" => (some "input", [("type", ConstraintVal.single "checkbox")])
    | "text field" => (some "input", [("type", ConstraintVal.several
        ["date", "datetime-local", "email", "month", "number", "password",
         "search", "tel", "text", "time", "url", "week", "file"])])
    | "file upload" => (some "input", [("type", ConstraintVal.single "file")])
    | "text area" => (some "textarea", [])
    | t => (some t, [])

/-! ### Locator parsing (`Base._get_strategy`)

The generic pattern is the Python regular expression
`^((\w+ )?(\w+)) ?[:=] ?(.+)` evaluated by `re.search`.  Its backtracking
behaviour is embedded exactly: the optional two-word group is tried first,
each `\w+` is forced to the maximal word run (a shorter run would place a
word character where a space or separator is required), ` ?` prefers to
consume a space, and the trailing `(.+)` greedily captures the remaining
run of non-newline characters, which must be non-empty. -/

/-- Python's `\w` over the ASCII range: letters, digits and underscore. -/
def isWordChar (c : Char) : Bool :=
  ('a' ≤ c && c ≤ 'z') || ('A' ≤ c && c ≤ 'Z') || ('0' ≤ c && c ≤ '9') || c == '_'

/-- The maximal leading run of word characters (the text matched by a greedy
`\w+` at this position, when non-empty). -/
def leadWordRun (l : List Char) : List Char := l.takeWhile isWordChar

/-- Matches ` ?[:=] ?(.+)` at the given position and returns the text
captured by `(.+)`.  When the optional space after the separator is consumed
but leaves nothing for `(.+)`, the engine backtracks and lets `(.+)` start
at the space. -/
def matchSepAndRest (l : List Char) : Option (List Char) :=
  let core : List Char → Option (List Char) := fun m =>
    match m with
    | c :: rest =>
      if c == ':' || c == '=' then
        match rest with
        | ' ' :: rest2 =>
          let g := rest2.takeWhile (fun d => !(d == '\n'))
          if g.isEmpty then
            let g2 := (' ' :: rest2).takeWhile (fun d => !(d == '\n'))
            if g2.isEmpty then none else some g2
          else some g
        | _ =>
          let g := rest.takeWhile (fun d => !(d == '\n'))
          if g.isEmpty then none else some g
      else none
    | [] => none
  match l with
  | ' ' :: rest => core rest
  | _ => core l

/-- The full pattern `^((\w+ )?(\w+)) ?[:=] ?(.+)` at position 0, returning
(group 1, group 4): the two-word branch `(\w+ )(\w+)` is preferred, the
one-word branch is the fallback. -/
def regexGroups (l : List Char) : Option (List Char × List Char) :=
  let branchA : Option (List Char × List Char) :=
    let w1 := leadWordRun l
    if w1.isEmpty then none
    else
      match l.drop w1.length with
      | ' ' :: rest =>
        let w2 := leadWordRun rest
        if w2.isEmpty then none
        else
          match matchSepAndRest (rest.drop w2.length) with
          | some g4 => some (w1 ++ ' ' :: w2, g4)
          | none => none
      | _ => none
  match branchA with
  | some r => some r
  | none =>
    let w := leadWordRun l
    if w.isEmpty then none
    else
      match matchSepAndRest (l.drop w.length) with
      | some g4 => some (w, g4)
      | none => none

/-- The `ValueError` message raised by `Base._get_strategy` on parse failure:
`'Was not able to parse locator "<locator>". Example usage "id:theID"'`. -/
def parse_error_message (locator : String) : String :=
  "Was not able to parse locator \"" ++ locator ++ "\". Example usage \"id:theID\""

/-- `Base._get_strategy(locator)`: shorthand prefixes first (`/`, `(`, `.`
give xpath with the raw string; `#` gives id and `@` gives link with the
prefix stripped), then the generic `strategy:query` regular expression with
the strategy lower-cased; otherwise a `ValueError` naming the locator. -/
def get_strategy (locator : String) : Except String (String × String) :=
  match locator.data with
  | '/' :: _ => .ok ("xpath", locator)
  | '(' :: _ => .ok ("xpath", locator)
  | '.' :: _ => .ok ("xpath", locator)
  | '#' :: rest => .ok ("id", String.mk rest)
  | '@' :: rest => .ok ("link", String.mk rest)
  | l =>
    match regexGroups l with
    | none => .error (parse_error_message locator)
    | some (g1, g4) => .ok (pyLower (String.mk g1), String.mk g4)

/-- The `_strategy_alias` table from `Base.__init__`, as ordered pairs. -/
def strategy_alias : List (String × String) :=
  [("identifier", "identifier"),
   ("id", "id"), ("by id", "id"), ("by_id", "id"), ("#", "id"),
   ("name", "name"), ("by name", "name"), ("by_name", "name"),
   ("xpath", "xpath"), ("x", "xpath"), ("x path", "xpath"), ("path", "xpath"),
   ("dom", "dom"),
   ("link", "link"), ("@", "link"), ("link text", "link"),
   ("partial", "partial link"), ("partial link", "partial link"),
   ("plink", "partial link"), ("partial_link", "partial link"),
   ("css", "css"), ("css path", "css"), ("css_path", "css"),
   ("class name", "class"), ("class", "class"), ("class_name", "class"),
   ("jquery", "jquery"), ("jq", "jquery"), ("j query", "jquery"),
   ("tag", "tag"),
   ("default", "default")]

/-- Dictionary lookup `self._strategy_alias[strategy]`; `none` models the
`KeyError` raised on an unrecognized alias. -/
def lookupAlias (s : String) : Option String :=
  (strategy_alias.find? (fun p => p.1 == s)).map (fun p => p.2)

/-! ### XPath value escaping (`Base._escape_xpath_value`) and the default
multi-attribute search (`Base._find_by_default`). -/

/-- Python `str.split(sep)` for a single-character separator, at character
level: splitting yields one (possibly empty) part per separator gap, so the
result is always non-empty and `"".split(c) == [""]`. -/
def splitOnChar (sep : Char) : List Char → List (List Char)
  | [] => [[]]
  | c :: rest =>
    if c == sep then [] :: splitOnChar sep rest
    else
      match splitOnChar sep rest with
      | [] => [[c]]
      | p :: ps => (c :: p) :: ps

/-- Python `sep.join(parts)` at character level. -/
def joinWithSep (sep : List Char) : List (List Char) → List Char
  | [] => []
  | [p] => p
  | p :: q :: ps => p ++ sep ++ joinWithSep sep (q :: ps)

/-- `Base._escape_xpath_value(value)`: with both quote kinds present, split
on the apostrophes and emit `concat('part', "'", 'part', ...)`; with only
apostrophes present wrap in double quotes; otherwise wrap in single
quotes. -/
def escape_xpath_value (value : String) : String :=
  if pyContainsChar value '"' && pyContainsChar value '\'' then
    String.mk ("concat('".data ++
      joinWithSep "', \"'\", '".data (splitOnChar '\'' value.data) ++ "')".data)
  else if pyContainsChar value '\'' then "\"" ++ value ++ "\""
  else "'" ++ value ++ "'"

/-- Reads the body of an XPath string literal delimited by the quote
character `q`: the content is everything up to the next `q`, which must be
present and is consumed. -/
def readLit (q : Char) (l : List Char) : Option (List Char × List Char) :=
  let content := l.takeWhile (fun c => !(c == q))
  match l.drop content.length with
  | c :: rest => if c == q then some (content, rest) else none
  | [] => none

/-- Reads one XPath string literal, `'...'` or `"..."`. -/
def parseLit : List Char → Option (List Char × List Char)
  | '\'' :: rest => readLit '\'' rest
  | '"' :: rest => readLit '"' rest
  | _ => none

/-- Evaluates the argument list of an XPath `concat(...)` expression: a
comma-separated (optionally space-padded) sequence of string literals up to
the closing parenthesis, returning the concatenation of their values. -/
def parseConcatArgs : Nat → List Char → Option (List Char)
  | 0, _ => none
  | Nat.succ fuel, l =>
    match parseLit l with
    | none => none
    | some (content, rest) =>
      match rest with
      | [')'] => some content
      | ',' :: rest2 =>
        (parseConcatArgs fuel (rest2.dropWhile (fun c => c == ' '))).map
          (fun t => content ++ t)
      | _ => none

/-- Evaluates an XPath string expression of the shapes produced by the
escaper: a single string literal, or `concat(...)` over string literals.
Returns the string value the XPath engine would compute. -/
def evalXPathStringExpr (s : String) : Option String :=
  if s.data.take 7 = "concat(".data then
    (parseConcatArgs (s.data.drop 7).length (s.data.drop 7)).map String.mk
  else
    match parseLit s.data with
    | some (content, []) => some (String.mk content)
    | _ => none

/-- The `_key_attrs` table of `Base._find_by_default`; unknown or absent
tags use the `None` entry. -/
def default_key_attrs (tag : Option String) : List String :=
  match tag with
  | some "a" => ["@id", "@name", "@href", "normalize-space(descendant-or-self::text())"]
  | some "img" => ["@id", "@name", "@src", "@alt"]
  | some "input" => ["@id", "@name", "@value", "@src"]
  | some "button" => ["@id", "@name", "@value", "normalize-space(descendant-or-self::text())"]
  | _ => ["@id", "@name"]

/-- `Base._get_xpath_constraint(name, value)`. -/
def get_xpath_constraint (name : String) (value : ConstraintVal) : String :=
  match value with
  | .several l => "@" ++ name ++ "[. = '" ++ String.intercalate "' or . = '" l ++ "']"
  | .single v => "@" ++ name ++ "='" ++ v ++ "'"

/-- `Base._get_xpath_constraints(constraints)`, in dictionary insertion
order. -/
def get_xpath_constraints (constraints : List (String × ConstraintVal)) : List String :=
  constraints.map (fun p => get_xpath_constraint p.1 p.2)

/-- `Base._get_base_url()`: the driver's current URL with its final
`/`-separated segment removed, when any `/` is present. -/
def get_base_url (url : String) : String :=
  if pyContainsChar url '/' then
    String.intercalate "/" (((splitOnChar '/' url.data).map String.mk).dropLast)
  else url

/-- `Base._get_attrs_with_url(key_attrs, criteria)`: for each of `@src` and
`@href` present among the key attributes, add a probe against the base URL
joined with the criterion. -/
def get_attrs_with_url (key_attrs : List String) (criteria : String) (base : String) : List String :=
  let xpath_url := escape_xpath_value (base ++ "/" ++ criteria)
  (["@src", "@href"].filter (fun a => key_attrs.contains a)).map
    (fun a => a ++ "=" ++ xpath_url)

/-- The XPath expression synthesized by `Base._find_by_default`. -/
def find_by_default_xpath (criteria : String) (tag : Option String)
    (constraints : List (String × ConstraintVal)) (base : String) : String :=
  let key_attrs := default_key_attrs tag
  let xpath_criteria := escape_xpath_value criteria
  let xpath_tag := match tag with | some t => t | none => "*"
  let xpath_constraints := get_xpath_constraints constraints
  let xpath_searchers := key_attrs.map (fun attr => attr ++ "=" ++ xpath_criteria)
    ++ get_attrs_with_url key_attrs criteria base
  "//" ++ xpath_tag ++ "[" ++ String.intercalate " and " xpath_constraints
    ++ (if xpath_constraints.isEmpty then "" else " and ")
    ++ "(" ++ String.intercalate " or " xpath_searchers ++ ")]"

/-! ### The element finder (`Base.find_element` / `Base.find_elements`)

The Selenium driver is abstracted as an oracle environment: `native` stands
for the native `find_elements_by_<kind>` lookups (under an optional parent
scope), `script` and `scriptList` for `driver.execute_script`, and
`currentUrl` for `driver.current_url`. -/

/-- The value of a `driver.execute_script` call as observed by
`_find_by_dom`: `None`, a single element, or a list of elements. -/
inductive ScriptResult where
  | null
  | single (e : Element)
  | several (l : List Element)

/-- The driver-side collaborators used by the finder. -/
structure DriverEnv where
  native : String → String → Option Element → List Element
  script : String → ScriptResult
  scriptList : String → List Element
  currentUrl : String

/-- Errors the finder can raise: `NoSuchElementException`, `ValueError`, and
a dictionary `KeyError` on an unknown strategy alias. -/
inductive FindError where
  | noSuchElement (msg : String)
  | valueError (msg : String)
  | keyError (key : String)
  deriving DecidableEq, Repr

/-- The return value of `find_element`: a single element, `None`, or a list
of elements (for `first_only=False`). -/
inductive FindResult where
  | one (e : Element)
  | noneFound
  | many (l : List Element)
  deriving DecidableEq, Repr

/-- A `locator` argument: an already-resolved `WebElement`, a string, or (in
`find_elements` only) a list of `WebElement`s. -/
inductive Locator where
  | elem (e : Element)
  | str (s : String)
  | elemList (l : List Element)

/-- The strategy dispatch `self._strategies[...]`, one case per canonical
strategy name, each translated from the corresponding `Base._find_by_*`
method.  `dom` and `jquery` refuse a `WebElement` parent; `dom` coerces a
non-list script result into a singleton and treats `None` as no match;
`default` searches by the synthesized XPath without a further filter pass. -/
def strategy_method (env : DriverEnv) (canon query : String) (tag : Option String)
    (constraints : List (String × ConstraintVal)) (parent : Option Element) :
    Except FindError (List Element) :=
  match canon with
  | "identifier" => .ok (filterElements
      (env.native "id" query parent ++ env.native "name" query parent) tag constraints)
  | "id" => .ok (filterElements (env.native "id" query parent) tag constraints)
  | "name" => .ok (filterElements (env.native "name" query parent) tag constraints)
  | "xpath" => .ok (filterElements (env.native "xpath" query parent) tag constraints)
  | "dom" =>
    if parent.isSome then
      .error (.valueError "This method does not allow WebElement as parent")
    else
      match env.script ("return " ++ query ++ ";") with
      | .null => .ok []
      | .single e => .ok (filterElements [e] tag constraints)
      | .several l => .ok (filterElements l tag constraints)
  | "link" => .ok (filterElements (env.native "link text" query parent) tag constraints)
  | "partial link" =>
    .ok (filterElements (env.native "partial link text" query parent) tag constraints)
  | "css" => .ok (filterElements (env.native "css selector" query parent) tag constraints)
  | "class" => .ok (filterElements (env.native "class name" query parent) tag constraints)
  | "jquery" =>
    if parent.isSome then
      .error (.valueError "This method does not allow WebElement as parent")
    else
      .ok (filterElements
        (env.scriptList ("return jQuery('" ++ query.replace "'" "\\'" ++ "').get();"))
        tag constraints)
  | "tag" => .ok (filterElements (env.native "tag name" query parent) tag constraints)
  | "default" =>
    .ok (env.native "xpath"
      (find_by_default_xpath query tag constraints (get_base_url env.currentUrl)) parent)
  | other => .error (.keyError other)

/-- Python `str.capitalize()`: first character upper-cased, the rest
lower-cased. -/
def pyCapitalize (s : String) : String :=
  match s.data with
  | [] => ""
  | c :: cs => String.mk (c.toUpper :: cs.map Char.toLower)

/-- `element_type` in `find_element`: `'Element' if not tag else
tag.capitalize()` (an empty tag string is falsy in Python). -/
def element_type_of (tag : Option String) : String :=
  match tag with
  | none => "Element"
  | some t => if t.isEmpty then "Element" else pyCapitalize t

/-- The `NoSuchElementException` message of `find_element`:
`'{} with locator "{}" not found. it was parsed as strategy="{}" and
query="{}"'`. -/
def not_found_message (element_type locator strategy query : String) : String :=
  element_type ++ " with locator \"" ++ locator ++
    "\" not found. it was parsed as strategy=\"" ++ strategy ++
    "\" and query=\"" ++ query ++ "\""

/-- `Base.find_element(locator, tag, required, parent, first_only)`.  An
already-resolved `WebElement` locator is returned as-is before any parsing.
A string locator is parsed, alias-resolved and dispatched; with `required`
and no candidates a `NoSuchElementException` carrying the locator, strategy
and query is raised; otherwise `first_only` selects `elements[0]` (or
`None`), and `first_only=False` returns the whole list.  A list locator
reaching `find_element` fails in Python (`AttributeError` on `startswith`),
modelled as an error. -/
def find_element (env : DriverEnv) (locator : Locator) (tag : Option String)
    (required : Bool) (parent : Option Element) (first_only : Bool) :
    Except FindError FindResult :=
  match locator with
  | .elem e => .ok (.one e)
  | .elemList _ => .error (.valueError "list locator has no startswith attribute")
  | .str s =>
    let element_type := element_type_of tag
    match get_strategy s with
    | .error m => .error (.valueError m)
    | .ok (strategy, query) =>
      match lookupAlias strategy with
      | none => .error (.keyError strategy)
      | some canon =>
        let tc := get_tag_and_constraints tag
        match strategy_method env canon query tc.1 tc.2 parent with
        | .error e => .error e
        | .ok elements =>
          if required && elements.isEmpty then
            .error (.noSuchElement (not_found_message element_type s strategy query))
          else if first_only then
            match elements with
            | [] => .ok .noneFound
            | e :: _ => .ok (.one e)
          else .ok (.many elements)

/-- `Base.find_elements(locator, tag, required, parent)`: a `WebElement`
locator is wrapped in a singleton list; a list of `WebElement`s is filtered
with the resolved tag and constraints; a string locator is delegated to
`find_element` with `first_only=False`. -/
def find_elements (env : DriverEnv) (locator : Locator) (tag : Option String)
    (required : Bool) (parent : Option Element) : Except FindError FindResult :=
  match locator with
  | .elem e => .ok (.many [e])
  | .elemList l =>
    let tc := get_tag_and_constraints tag
    .ok (.many (filterElements l tc.1 tc.2))
  | .str s => find_element env (.str s) tag required parent false

/-! ### The poll primitive (`Waiting._wait_until` / `Waiting._wait_until_not`)

The source wraps Selenium's `WebDriverWait(driver, timeout).until(func)` /
`.until_not(func)` and, on `TimeoutException`, overwrites the exception's
message with the caller-supplied one before re-raising.  The poll loop
itself is the external Selenium collaborator; it is embedded with its
documented semantics (spec section 4.5): the predicate is evaluated once per
poll tick until it returns a truthy (`until`) or falsy (`until_not`) value,
and the remaining tick budget `polls` stands for the deadline.  The
predicate's successive values are given as a sequence indexed by tick, and
truthiness of the (arbitrary) result type is an explicit parameter. -/

/-- A `TimeoutException`, reduced to its mutable `msg` field. -/
structure TimeoutExc where
  msg : String
  deriving DecidableEq, Repr

/-- Selenium `WebDriverWait.until`: return the first truthy predicate value,
or raise a `TimeoutException` (with Selenium's own message) once the tick
budget is exhausted. -/
def webdriver_wait_until {α : Type} (truthy : α → Bool) (pred : Nat → α) :
    Nat → Nat → Except TimeoutExc α
  | _, 0 => .error ⟨""⟩
  | i, Nat.succ fuel =>
    let value := pred i
    if truthy value then .ok value else webdriver_wait_until truthy pred (i + 1) fuel

/-- Selenium `WebDriverWait.until_not`: the falsy-polarity twin. -/
def webdriver_wait_until_not {α : Type} (truthy : α → Bool) (pred : Nat → α) :
    Nat → Nat → Except TimeoutExc α
  | _, 0 => .error ⟨""⟩
  | i, Nat.succ fuel =>
    let value := pred i
    if truthy value then webdriver_wait_until_not truthy pred (i + 1) fuel else .ok value

/-- `Waiting._wait_until(func, timeout, message)`: pass the poll result
through; on `TimeoutException` set `excp.msg = message` and re-raise. -/
def wait_until {α : Type} (truthy : α → Bool) (pred : Nat → α) (polls : Nat)
    (message : String) : Except TimeoutExc α :=
  match webdriver_wait_until truthy pred 0 polls with
  | .ok result => .ok result
  | .error excp => .error { excp with msg := message }

/-- `Waiting._wait_until_not(func, timeout, message)`. -/
def wait_until_not {α : Type} (truthy : α → Bool) (pred : Nat → α) (polls : Nat)
    (message : String) : Except TimeoutExc α :=
  match webdriver_wait_until_not truthy pred 0 polls with
  | .ok result => .ok result
  | .error excp => .error { excp with msg := message }

/-! ### Window selection (`WindowManager`) -/

/-- The driver-level signals of one window: its Selenium handle, the
JavaScript `window.id` and `window.name` values (`none` models a JavaScript
`undefined` returned as Python `None`), and the page title and URL (the
driver returns `''` when these are absent). -/
structure WindowData where
  handle : String
  winId : Option String
  winName : Option String
  title : String
  url : String
  deriving DecidableEq, Repr

/-- The `WindowInfo` namedtuple `(handle, id, name, title, url)`. -/
structure WindowInfo where
  handle : String
  id : String
  name : String
  title : String
  url : String
  deriving DecidableEq, Repr

/-- Iterating the namedtuple yields its five fields in declaration order. -/
def WindowInfo.items (i : WindowInfo) : List String :=
  [i.handle, i.id, i.name, i.title, i.url]

/-- The window-manager-relevant driver state: open windows in handle order,
the current window handle (`none` models `NoSuchWindowException` from
`driver.current_window_handle`), and whether the driver supports script
evaluation (`false` models the `WebDriverException` caught in
`_get_current_window_info`). -/
structure WMState where
  windows : List WindowData
  current : Option String
  scriptSupport : Bool

/-- Python `x or default` for an optional string: `None` and `''` are falsy. -/
def pyOrUndefined (v : Option String) : String :=
  match v with
  | some s => if s.isEmpty then "undefined" else s
  | none => "undefined"

/-- `WindowManager._get_current_window_info()` evaluated against the window
the driver currently shows: without script support both `id` and `name`
become `None`; then the namedtuple is built as
`WindowInfo(handle, id if id is not None else 'undefined',
name or 'undefined', title or 'undefined', url or 'undefined')`. -/
def get_current_window_info (scriptSupport : Bool) (w : WindowData) : WindowInfo :=
  let idName : Option String × Option String :=
    if scriptSupport then (w.winId, w.winName) else (none, none)
  { handle := w.handle
    id := match idName.1 with | some s => s | none => "undefined"
    name := pyOrUndefined idName.2
    title := if w.title.isEmpty then "undefined" else w.title
    url := if w.url.isEmpty then "undefined" else w.url }

/-- The `NoSuchWindowException` message of `_select_by_default`. -/
def no_window_match_message (criteria : String) : String :=
  "No window matching handle, id, name, title or URL '" ++ criteria ++ "' found."

/-- The shared iteration of `_select_by_default` and `_select_by_matcher`:
switch into each window in turn; on the first window whose info satisfies
the matcher, return the pre-switch starting handle, leaving the driver on
the matched window.  When no window matches, switch back to the starting
window — but only when the starting handle is truthy — and raise
`NoSuchWindowException`.  The pair returned is (current window handle after
the call, outcome). -/
def select_window_loop (scriptSupport : Bool) (matcher : WindowInfo → Bool)
    (error : String) (starting : Option String) :
    List WindowData → Option String → Option String × Except String (Option String)
  | [], cur =>
    let cur2 := match starting with
      | some h => if h.isEmpty then cur else some h
      | none => cur
    (cur2, .error error)
  | w :: rest, _ =>
    if matcher (get_current_window_info scriptSupport w) then
      (some w.handle, .ok starting)
    else select_window_loop scriptSupport matcher error starting rest (some w.handle)

/-- `WindowManager._select_by_default(criteria)`: the starting handle is read
first (`None` when the current window is gone); each window's five info
items are compared against the criterion in namedtuple order, first match
winning. -/
def select_by_default (st : WMState) (criteria : String) :
    WMState × Except String (Option String) :=
  let r := select_window_loop st.scriptSupport
    (fun info => info.items.contains criteria)
    (no_window_match_message criteria) st.current st.windows st.current
  ({ st with current := r.1 }, r.2)

/-- `WindowManager._select_by_matcher(matcher, error)`: as above with an
explicit matcher over the window info. -/
def select_by_matcher (st : WMState) (matcher : WindowInfo → Bool) (error : String) :
    WMState × Except String (Option String) :=
  let r := select_window_loop st.scriptSupport matcher error st.current st.windows st.current
  ({ st with current := r.1 }, r.2)

/-- `WindowManager._select_by_id(id)`. -/
def select_by_id (st : WMState) (id : String) : WMState × Except String (Option String) :=
  select_by_matcher st (fun info => info.id == id)
    ("Unable to locate window with id '" ++ id ++ "'.")

/-- `WindowManager._select_by_name(name)`. -/
def select_by_name (st : WMState) (name : String) : WMState × Except String (Option String) :=
  select_by_matcher st (fun info => info.name == name)
    ("Unable to locate window with name '" ++ name ++ "'.")

/-- `WindowManager._select_by_title(title)`. -/
def select_by_title (st : WMState) (title : String) : WMState × Except String (Option String) :=
  select_by_matcher st (fun info => info.title == title)
    ("Unable to locate window with title '" ++ title ++ "'.")

/-- `WindowManager._select_by_url(url)`. -/
def select_by_url (st : WMState) (url : String) : WMState × Except String (Option String) :=
  select_by_matcher st (fun info => info.url == url)
    ("Unable to locate window with URL '" ++ url ++ "'.")

/-! ### Statement helpers and concrete fixtures -/

/-- `sub` occurs as a contiguous substring of `m`. -/
def containsSub (m sub : String) : Prop :=
  ∃ a b, m.data = a ++ sub.data ++ b

/-- A driver environment in which every lookup comes back empty. -/
def emptyEnv : DriverEnv :=
  { native := fun _ _ _ => [], script := fun _ => .null,
    scriptList := fun _ => [], currentUrl := "" }

/-- A radio-button input element (upper-case tag name as drivers report). -/
def radioInput : Element := { tag_name := "INPUT", attributes := [("type", "radio")] }

/-- A checkbox input element. -/
def checkboxInput : Element := { tag_name := "input", attributes := [("type", "checkbox")] }

/-- A fully-populated browser window. -/
def windowA : WindowData :=
  { handle := "hA", winId := some "idA", winName := some "nameA",
    title := "titleA", url := "urlA" }

/-- A second fully-populated browser window. -/
def windowB : WindowData :=
  { handle := "hB", winId := some "idB", winName := some "nameB",
    title := "titleB", url := "urlB" }

/-- A session showing `windowA` with both windows open. -/
def twoWindowState : WMState :=
  { windows := [windowA, windowB], current := some "hA", scriptSupport := true }

/-- A window with every defaultable signal unavailable. -/
def bareWindow : WindowData :=
  { handle := "h1", winId := none, winName := some "", title := "", url := "" }

/-! ## Supporting lemmas -/

/-- `_get_strategy` fails only with the parse-error message built from the
original locator string. -/
theorem get_strategy_error_eq (s : String) (m : String)
    (h : get_strategy s = .error m) : m = parse_error_message s := by
  unfold get_strategy at h
  split at h
  · exact absurd h (by simp)
  · exact absurd h (by simp)
  · exact absurd h (by simp)
  · exact absurd h (by simp)
  · exact absurd h (by simp)
  · split at h
    · exact (Except.error.injEq _ _).mp h |>.symm
    · exact absurd h (by simp)

/-! ## Claims -/

/-- C10: filtering with a null tag returns the input list unchanged for
every constraint map, and a find call with no kind resolves to a null tag
with no constraints, so no candidate filtering happens at all. -/
theorem filter_null_tag_identity (elements : List Element)
    (constraints : List (String × ConstraintVal)) :
    filterElements elements none constraints = elements ∧
    get_tag_and_constraints none = (none, []) :=
  ⟨rfl, rfl⟩

/-- C9: constraint filtering is idempotent — filtering an already-filtered
list with the same tag and constraints returns it unchanged (element
observations are pure in the embedding, so stability holds by construction). -/
theorem filter_idempotent (elements : List Element) (tag : Option String)
    (constraints : List (String × ConstraintVal)) :
    filterElements (filterElements elements tag constraints) tag constraints =
      filterElements elements tag constraints := by
  cases tag with
  | none => rfl
  | some t => simp [filterElements, List.filter_filter]

/-- C4: a locator that is already a resolved element handle short-circuits
`find_element` — the handle is returned for every environment, tag,
`required` and `first_only` setting, with no parsing or filtering — and the
`first_only=False` entry point `find_elements` returns it wrapped in a
single-element list. -/
theorem find_webelement_short_circuit :
    (∀ (env : DriverEnv) (e : Element) (tag : Option String) (required : Bool)
        (parent : Option Element) (first_only : Bool),
      find_element env (.elem e) tag required parent first_only = .ok (.one e)) ∧
    (∀ (env : DriverEnv) (e : Element) (tag : Option String) (required : Bool)
        (parent : Option Element),
      find_elements env (.elem e) tag required parent = .ok (.many [e])) :=
  ⟨fun _ _ _ _ _ _ => rfl, fun _ _ _ _ _ => rfl⟩

/-- C3: with a resolved tag and a non-empty constraint map, `_filter` keeps
exactly the candidates whose lowered tag name equals the tag and that
satisfy at least ONE named constraint (equality for string constraints,
membership for set constraints) — OR semantics across constraint names, not
AND. -/
theorem filter_or_semantics (elements : List Element) (tag : String)
    (constraints : List (String × ConstraintVal)) (hne : constraints ≠ [])
    (e : Element) :
    e ∈ filterElements elements (some tag) constraints ↔
      e ∈ elements ∧ pyLower e.tag_name = tag ∧
        ∃ c ∈ constraints, constraintMatches e c = true := by
  have hne' : constraints.isEmpty = false := by
    cases constraints with
    | nil => exact absurd rfl hne
    | cons c l => rfl
  by_cases htag : pyLower e.tag_name = tag
  · simp [filterElements, List.mem_filter, elementPasses, hne', htag, List.any_eq_true]
  · simp [filterElements, List.mem_filter, elementPasses, hne', htag, List.any_eq_true]

/-- Witness for C3 at a concrete list and constraint map. -/
theorem filter_or_semantics_witness :
    ([("type", ConstraintVal.single "radio")] ≠ ([] : List (String × ConstraintVal))) ∧
    (radioInput ∈ filterElements [radioInput, checkboxInput] (some "input")
        [("type", ConstraintVal.single "radio")] ↔
      radioInput ∈ [radioInput, checkboxInput] ∧ pyLower radioInput.tag_name = "input" ∧
        ∃ c ∈ [("type", ConstraintVal.single "radio")],
          constraintMatches radioInput c = true) :=
  ⟨by simp, filter_or_semantics [radioInput, checkboxInput] "input" _ (by simp) radioInput⟩

/-- C2: locator parsing priority — `/`, `(`, `.` prefixes give xpath with
the raw string unchanged; `#` gives id with the prefix stripped (so
`#theID` parses identically to `id:theID`); `@` gives link with the prefix
stripped; shorthand never falls through to the generic matcher (the first
three conjuncts hold for every string of the given shape, irrespective of
the generic pattern); the generic `strategy:query` pattern handles
`"class name = spicy"`; and every parse failure carries a message containing
the original string, with `""` and `"no-separator-here"` failing. -/
theorem get_strategy_rules (s : String) :
    (∀ c rest, s.data = c :: rest → c = '/' ∨ c = '(' ∨ c = '.' →
      get_strategy s = .ok ("xpath", s)) ∧
    (∀ rest, s.data = '#' :: rest → get_strategy s = .ok ("id", String.mk rest)) ∧
    (∀ rest, s.data = '@' :: rest → get_strategy s = .ok ("link", String.mk rest)) ∧
    get_strategy "#theID" = get_strategy "id:theID" ∧
    get_strategy "class name = spicy" = .ok ("class name", "spicy") ∧
    (∀ m, get_strategy s = .error m → containsSub m s) ∧
    get_strategy "" = .error (parse_error_message "") ∧
    get_strategy "no-separator-here" = .error (parse_error_message "no-separator-here") := by
  obtain ⟨ldata⟩ := s
  refine ⟨?_, ?_, ?_, rfl, rfl, ?_, rfl, rfl⟩
  · intro c rest h hc
    have h' : ldata = c :: rest := h
    subst h'
    rcases hc with hc | hc | hc <;> subst hc <;> rfl
  · intro rest h
    have h' : ldata = '#' :: rest := h
    subst h'
    rfl
  · intro rest h
    have h' : ldata = '@' :: rest := h
    subst h'
    rfl
  · intro m hm
    have hmsg := get_strategy_error_eq _ _ hm
    subst hmsg
    refine ⟨"Was not able to parse locator \"".data,
            "\". Example usage \"id:theID\"".data, ?_⟩
    simp [parse_error_message, String.data_append, List.append_assoc]

/-- Witness for C2, applying the rules at concrete locators. -/
theorem get_strategy_rules_witness :
    get_strategy "//div" = .ok ("xpath", "//div") ∧
    get_strategy "#myId" = .ok ("id", String.mk ['m', 'y', 'I', 'd']) ∧
    get_strategy "@login" = .ok ("link", String.mk ['l', 'o', 'g', 'i', 'n']) ∧
    containsSub (parse_error_message "no-separator-here") "no-separator-here" := by
  refine ⟨(get_strategy_rules "//div").1 '/' "/div".data rfl (Or.inl rfl),
          (get_strategy_rules "#myId").2.1 "myId".data rfl,
          (get_strategy_rules "@login").2.2.1 "login".data rfl,
          (get_strategy_rules "no-separator-here").2.2.2.2.2.1
            (parse_error_message "no-separator-here") rfl⟩

/-- C1: when a string locator parses, its strategy alias resolves, and the
dispatched search yields zero candidates, `find_element` with
`required=True` fails with a distinct not-found error whose message contains
the original locator, the resolved strategy and the resolved query; with
`required=False` it returns `None` for `first_only=True` and the empty list
for `first_only=False`, never raising. -/
theorem find_required_empty (env : DriverEnv) (s : String) (tag : Option String)
    (parent : Option Element) (strat query canon : String)
    (hparse : get_strategy s = .ok (strat, query))
    (halias : lookupAlias strat = some canon)
    (hempty : strategy_method env canon query (get_tag_and_constraints tag).1
      (get_tag_and_constraints tag).2 parent = .ok []) :
    (∀ first_only, find_element env (.str s) tag true parent first_only =
      .error (.noSuchElement (not_found_message (element_type_of tag) s strat query))) ∧
    containsSub (not_found_message (element_type_of tag) s strat query) s ∧
    containsSub (not_found_message (element_type_of tag) s strat query) strat ∧
    containsSub (not_found_message (element_type_of tag) s strat query) query ∧
    find_element env (.str s) tag false parent true = .ok .noneFound ∧
    find_element env (.str s) tag false parent false = .ok (.many []) := by
  refine ⟨?_, ?_, ?_, ?_, ?_, ?_⟩
  · intro first_only
    simp [find_element, hparse, halias, hempty]
  · refine ⟨(element_type_of tag ++ " with locator \"").data,
      ("\" not found. it was parsed as strategy=\"" ++ strat ++
        "\" and query=\"" ++ query ++ "\"").data, ?_⟩
    simp [not_found_message, String.data_append, List.append_assoc]
  · refine ⟨(element_type_of tag ++ " with locator \"" ++ s ++
        "\" not found. it was parsed as strategy=\"").data,
      ("\" and query=\"" ++ query ++ "\"").data, ?_⟩
    simp [not_found_message, String.data_append, List.append_assoc]
  · refine ⟨(element_type_of tag ++ " with locator \"" ++ s ++
        "\" not found. it was parsed as strategy=\"" ++ strat ++
        "\" and query=\"").data, ("\"" : String).data, ?_⟩
    simp [not_found_message, String.data_append, List.append_assoc]
  · simp [find_element, hparse, halias, hempty]
  · simp [find_element, hparse, halias, hempty]

/-- Witness for C1: an environment with no elements and the locator
`"id:foo"`. -/
theorem find_required_empty_witness :
    find_element emptyEnv (.str "id:foo") none false none true = .ok .noneFound ∧
    find_element emptyEnv (.str "id:foo") none false none false = .ok (.many []) ∧
    find_element emptyEnv (.str "id:foo") none true none true =
      .error (.noSuchElement (not_found_message (element_type_of none) "id:foo" "id" "foo")) ∧
    containsSub (not_found_message (element_type_of none) "id:foo" "id" "foo") "id:foo" := by
  have h := find_required_empty emptyEnv "id:foo" none none "id" "foo" "id" rfl rfl rfl
  exact ⟨h.2.2.2.2.1, h.2.2.2.2.2, h.1 true, h.2.1⟩

/-- The poll loop exhausts its budget when every polled value is falsy. -/
theorem webdriver_wait_until_timeout {α : Type} (truthy : α → Bool) (pred : Nat → α) :
    ∀ (fuel start : Nat), (∀ k, k < fuel → truthy (pred (start + k)) = false) →
      webdriver_wait_until truthy pred start fuel = .error ⟨""⟩ := by
  intro fuel
  induction fuel with
  | zero => intro start _; rfl
  | succ n ih =>
    intro start h
    have h0 : truthy (pred start) = false := by
      have := h 0 (Nat.succ_pos n)
      simpa using this
    simp only [webdriver_wait_until, h0, Bool.false_eq_true, if_false]
    refine ih (start + 1) (fun k hk => ?_)
    have e : start + 1 + k = start + (k + 1) := by omega
    rw [e]
    exact h (k + 1) (by omega)

/-- The poll loop returns the first truthy polled value itself. -/
theorem webdriver_wait_until_ok {α : Type} (truthy : α → Bool) (pred : Nat → α) :
    ∀ (fuel i start : Nat), i < fuel → truthy (pred (start + i)) = true →
      (∀ j, j < i → truthy (pred (start + j)) = false) →
      webdriver_wait_until truthy pred start fuel = .ok (pred (start + i)) := by
  intro fuel
  induction fuel with
  | zero => intro i start hi _ _; exact absurd hi (Nat.not_lt_zero i)
  | succ n ih =>
    intro i start hi ht hj
    cases i with
    | zero =>
      have ht' : truthy (pred start) = true := by simpa using ht
      simp [webdriver_wait_until, ht']
    | succ i' =>
      have h0 : truthy (pred start) = false := by
        have := hj 0 (Nat.succ_pos i')
        simpa using this
      simp only [webdriver_wait_until, h0, Bool.false_eq_true, if_false]
      have e : start + 1 + i' = start + (i' + 1) := by omega
      have := ih i' (start + 1) (by omega)
        (by rw [e]; exact ht)
        (fun j hjlt => by
          have e2 : start + 1 + j = start + (j + 1) := by omega
          rw [e2]
          exact hj (j + 1) (by omega))
      rw [this, e]

/-- `until_not` is `until` with negated truthiness. -/
theorem webdriver_wait_until_not_eq {α : Type} (truthy : α → Bool) (pred : Nat → α) :
    ∀ (fuel start : Nat), webdriver_wait_until_not truthy pred start fuel =
      webdriver_wait_until (fun a => !truthy a) pred start fuel := by
  intro fuel
  induction fuel with
  | zero => intro _; rfl
  | succ n ih =>
    intro start
    simp only [webdriver_wait_until, webdriver_wait_until_not]
    by_cases htv : truthy (pred start) = true
    · simp [htv, ih]
    · have htv' : truthy (pred start) = false := by simpa using htv
      simp [htv', ih]

/-- C5: when the deadline is exhausted, both polarities of the wait
primitive raise a `TimeoutException` whose message is exactly the
caller-supplied failure message; when the predicate succeeds before the
deadline, the primitive returns the predicate's last returned value itself
(of arbitrary type, not a coerced boolean). -/
theorem wait_until_spec {α : Type} (truthy : α → Bool) (pred : Nat → α)
    (polls : Nat) (message : String) :
    ((∀ i, i < polls → truthy (pred i) = false) →
      wait_until truthy pred polls message = .error ⟨message⟩) ∧
    (∀ i, i < polls → truthy (pred i) = true →
      (∀ j, j < i → truthy (pred j) = false) →
      wait_until truthy pred polls message = .ok (pred i)) ∧
    ((∀ i, i < polls → truthy (pred i) = true) →
      wait_until_not truthy pred polls message = .error ⟨message⟩) ∧
    (∀ i, i < polls → truthy (pred i) = false →
      (∀ j, j < i → truthy (pred j) = true) →
      wait_until_not truthy pred polls message = .ok (pred i)) := by
  refine ⟨?_, ?_, ?_, ?_⟩
  · intro h
    unfold wait_until
    rw [webdriver_wait_until_timeout truthy pred polls 0 (fun k hk => by simpa using h k hk)]
  · intro i hi ht hj
    unfold wait_until
    rw [webdriver_wait_until_ok truthy pred polls i 0 hi (by simpa using ht)
      (fun j hjlt => by simpa using hj j hjlt)]
    simp
  · intro h
    unfold wait_until_not
    rw [webdriver_wait_until_not_eq,
      webdriver_wait_until_timeout (fun a => !truthy a) pred polls 0
        (fun k hk => by simp [h k hk])]
  · intro i hi ht hj
    unfold wait_until_not
    rw [webdriver_wait_until_not_eq,
      webdriver_wait_until_ok (fun a => !truthy a) pred polls i 0 hi
        (by simp [ht]) (fun j hjlt => by simp [hj j hjlt])]
    simp

/-- Witness for C5 over `Nat`-valued predicates with Python truthiness. -/
theorem wait_until_spec_witness :
    wait_until (fun n => n != 0) (fun i => i) 3 "boom" = .ok 1 ∧
    wait_until (fun n => n != 0) (fun _ => 0) 3 "boom" = .error ⟨"boom"⟩ ∧
    wait_until_not (fun n => n != 0) (fun _ => 1) 3 "boom" = .error ⟨"boom"⟩ ∧
    wait_until_not (fun n => n != 0) (fun i => 2 - i) 3 "boom" = .ok 0 := by
  refine ⟨?_, ?_, ?_, ?_⟩
  · exact (wait_until_spec (fun n => n != 0) (fun i => i) 3 "boom").2.1 1
      (by omega) (by decide) (by decide)
  · exact (wait_until_spec (fun n => n != 0) (fun _ => 0) 3 "boom").1
      (fun i _ => by decide)
  · exact (wait_until_spec (fun n => n != 0) (fun _ => 1) 3 "boom").2.2.1
      (fun i _ => by decide)
  · exact (wait_until_spec (fun n => n != 0) (fun i => 2 - i) 3 "boom").2.2.2 2
      (by omega) (by decide) (by decide)

/-- When some window satisfies the matcher, the selection loop stops on the
first such window and returns the starting handle. -/
theorem select_window_loop_found (support : Bool) (matcher : WindowInfo → Bool)
    (error : String) (starting : Option String) :
    ∀ (ws : List WindowData) (cur : Option String) (w : WindowData),
      ws.find? (fun x => matcher (get_current_window_info support x)) = some w →
      select_window_loop support matcher error starting ws cur =
        (some w.handle, .ok starting) := by
  intro ws
  induction ws with
  | nil => intro cur w h; simp at h
  | cons v rest ih =>
    intro cur w h
    by_cases hv : matcher (get_current_window_info support v) = true
    · rw [List.find?_cons_of_pos
        (p := fun x => matcher (get_current_window_info support x)) rest hv] at h
      cases h
      simp [select_window_loop, hv]
    · have hv' : matcher (get_current_window_info support v) = false := by
        simpa using hv
      rw [List.find?_cons_of_neg
        (p := fun x => matcher (get_current_window_info support x)) rest
        (by simp [hv'])] at h
      simp only [select_window_loop, hv', Bool.false_eq_true, if_false]
      exact ih (some v.handle) w h

/-- When no window satisfies the matcher and the starting handle is a
non-empty string, the selection loop switches back to it and fails. -/
theorem select_window_loop_not_found (support : Bool) (matcher : WindowInfo → Bool)
    (error : String) (h0 : String) (hne : h0.isEmpty = false) :
    ∀ (ws : List WindowData) (cur : Option String),
      ws.find? (fun x => matcher (get_current_window_info support x)) = none →
      select_window_loop support matcher error (some h0) ws cur =
        (some h0, .error error) := by
  intro ws
  induction ws with
  | nil => intro cur _; simp [select_window_loop, hne]
  | cons v rest ih =>
    intro cur h
    have hv : matcher (get_current_window_info support v) = false := by
      by_cases hv : matcher (get_current_window_info support v) = true
      · rw [List.find?_cons_of_pos
          (p := fun x => matcher (get_current_window_info support x)) rest hv] at h
        cases h
      · simpa using hv
    rw [List.find?_cons_of_neg
      (p := fun x => matcher (get_current_window_info support x)) rest
      (by simp [hv])] at h
    simp only [select_window_loop, hv, Bool.false_eq_true, if_false]
    exact ih (some v.handle) h

/-- C6: for the 5-field default descriptor search and for every explicit
matcher search, success leaves the driver on the first matching window (no
switch-back) and returns the pre-switch starting handle; on failure, and
only on failure, the driver is switched back to the starting window before
the no-such-window error propagates. -/
theorem select_window_switchback (st : WMState) (criteria : String)
    (matcher : WindowInfo → Bool) (err : String) (h0 : String)
    (hcur : st.current = some h0) (hne : h0.isEmpty = false) :
    (∀ w, st.windows.find? (fun x =>
        (get_current_window_info st.scriptSupport x).items.contains criteria) = some w →
      select_by_default st criteria =
        ({ st with current := some w.handle }, .ok (some h0))) ∧
    (st.windows.find? (fun x =>
        (get_current_window_info st.scriptSupport x).items.contains criteria) = none →
      select_by_default st criteria =
        ({ st with current := some h0 }, .error (no_window_match_message criteria))) ∧
    (∀ w, st.windows.find? (fun x =>
        matcher (get_current_window_info st.scriptSupport x)) = some w →
      select_by_matcher st matcher err =
        ({ st with current := some w.handle }, .ok (some h0))) ∧
    (st.windows.find? (fun x =>
        matcher (get_current_window_info st.scriptSupport x)) = none →
      select_by_matcher st matcher err =
        ({ st with current := some h0 }, .error err)) := by
  refine ⟨?_, ?_, ?_, ?_⟩
  · intro w h
    unfold select_by_default
    rw [hcur, select_window_loop_found st.scriptSupport _ _ (some h0) st.windows
      (some h0) w h]
  · intro h
    unfold select_by_default
    rw [hcur, select_window_loop_not_found st.scriptSupport _ _ h0 hne st.windows
      (some h0) h]
  · intro w h
    unfold select_by_matcher
    rw [hcur, select_window_loop_found st.scriptSupport _ _ (some h0) st.windows
      (some h0) w h]
  · intro h
    unfold select_by_matcher
    rw [hcur, select_window_loop_not_found st.scriptSupport _ _ h0 hne st.windows
      (some h0) h]

/-- Witness for C6: a two-window session, matching on the second window's
title and failing on an absent title. -/
theorem select_window_switchback_witness :
    select_by_default twoWindowState "titleB" =
      ({ twoWindowState with current := some "hB" }, .ok (some "hA")) ∧
    select_by_default twoWindowState "zzz" =
      ({ twoWindowState with current := some "hA" },
        .error (no_window_match_message "zzz")) ∧
    select_by_matcher twoWindowState (fun info => info.id == "idB") "no id" =
      ({ twoWindowState with current := some "hB" }, .ok (some "hA")) ∧
    select_by_matcher twoWindowState (fun _ => false) "no id" =
      ({ twoWindowState with current := some "hA" }, .error "no id") := by
  have h1 := select_window_switchback twoWindowState "titleB"
    (fun info => info.id == "idB") "no id" "hA" rfl rfl
  have h2 := select_window_switchback twoWindowState "zzz"
    (fun _ => false) "no id" "hA" rfl rfl
  exact ⟨h1.1 windowB rfl, h2.2.1 rfl, h1.2.2.1 windowB rfl, h2.2.2.2 rfl⟩

/-- C8: the window descriptor is the 5-tuple (handle, id, name, title, url)
in that order, and each derived field falls back to the literal string
`"undefined"` when its signal is unavailable: id and name when the driver
cannot evaluate script, id when `window.id` is undefined, name when
`window.name` is undefined or empty, and title/url when absent. -/
theorem window_info_defaults (w : WindowData) (support : Bool) :
    (get_current_window_info support w).items =
      [(get_current_window_info support w).handle,
       (get_current_window_info support w).id,
       (get_current_window_info support w).name,
       (get_current_window_info support w).title,
       (get_current_window_info support w).url] ∧
    (get_current_window_info support w).handle = w.handle ∧
    (support = false → (get_current_window_info support w).id = "undefined" ∧
      (get_current_window_info support w).name = "undefined") ∧
    (w.winId = none → (get_current_window_info support w).id = "undefined") ∧
    (w.winName = none ∨ w.winName = some "" →
      (get_current_window_info support w).name = "undefined") ∧
    (w.title = "" → (get_current_window_info support w).title = "undefined") ∧
    (w.url = "" → (get_current_window_info support w).url = "undefined") := by
  refine ⟨rfl, rfl, ?_, ?_, ?_, ?_, ?_⟩
  · rintro rfl
    simp [get_current_window_info, pyOrUndefined]
  · intro h
    cases support <;> simp [get_current_window_info, h]
  · have he : "".isEmpty = true := rfl
    rintro (h | h) <;> cases support <;>
      simp [get_current_window_info, pyOrUndefined, h, he]
  · intro h
    have he : "".isEmpty = true := rfl
    simp [get_current_window_info, h, he]
  · intro h
    have he : "".isEmpty = true := rfl
    simp [get_current_window_info, h, he]

/-- Witness for C8 at a window with every defaultable signal unavailable. -/
theorem window_info_defaults_witness :
    (get_current_window_info true bareWindow).handle = bareWindow.handle ∧
    (get_current_window_info true bareWindow).id = "undefined" ∧
    (get_current_window_info true bareWindow).name = "undefined" ∧
    (get_current_window_info true bareWindow).title = "undefined" ∧
    (get_current_window_info true bareWindow).url = "undefined" ∧
    (get_current_window_info false windowA).id = "undefined" := by
  have h := window_info_defaults bareWindow true
  have h2 := window_info_defaults windowA false
  exact ⟨h.2.1, h.2.2.2.1 rfl, h.2.2.2.2.1 (Or.inr rfl), h.2.2.2.2.2.1 rfl,
    h.2.2.2.2.2.2 rfl, (h2.2.2.1 rfl).1⟩

/-- A `takeWhile` over "not this character" stops exactly at the first
occurrence of the character. -/
theorem takeWhile_until_char (q : Char) :
    ∀ (content rest : List Char), q ∉ content →
      (content ++ q :: rest).takeWhile (fun c => !(c == q)) = content := by
  intro content
  induction content with
  | nil => intro rest _; simp [List.takeWhile_cons]
  | cons c t ih =>
    intro rest h
    have hcq : c ≠ q := by
      intro he
      subst he
      exact h (List.mem_cons_self _ _)
    have hc : (c == q) = false := by simpa using hcq
    simp [List.cons_append, List.takeWhile_cons, hc,
      ih rest (fun hm => h (List.mem_cons_of_mem c hm))]

/-- Reading a literal body consumes exactly up to the closing quote. -/
theorem readLit_run (q : Char) (content rest : List Char) (h : q ∉ content) :
    readLit q (content ++ q :: rest) = some (content, rest) := by
  simp only [readLit]
  rw [takeWhile_until_char q content rest h, List.drop_left]
  simp

/-- A character-level split never returns the empty list of parts. -/
theorem splitOnChar_ne_nil (sep : Char) : ∀ l, splitOnChar sep l ≠ [] := by
  intro l
  induction l with
  | nil => simp [splitOnChar]
  | cons c rest ih =>
    by_cases hc : (c == sep) = true
    · simp [splitOnChar, hc]
    · have hc' : (c == sep) = false := by simpa using hc
      simp only [splitOnChar, hc', Bool.false_eq_true, if_false]
      cases hsp : splitOnChar sep rest with
      | nil => simp
      | cons p ps => simp

/-- No part produced by a split contains the separator. -/
theorem splitOnChar_not_mem (sep : Char) : ∀ l p, p ∈ splitOnChar sep l → sep ∉ p := by
  intro l
  induction l with
  | nil =>
    intro p hp
    simp only [splitOnChar, List.mem_singleton] at hp
    subst hp
    simp
  | cons c rest ih =>
    intro p hp
    by_cases hc : (c == sep) = true
    · simp only [splitOnChar, hc, if_true] at hp
      rcases List.mem_cons.mp hp with h | h
      · subst h; simp
      · exact ih p h
    · have hc' : (c == sep) = false := by simpa using hc
      have hcne : c ≠ sep := by
        intro he
        simp [he] at hc'
      simp only [splitOnChar, hc', Bool.false_eq_true, if_false] at hp
      cases hsp : splitOnChar sep rest with
      | nil =>
        rw [hsp] at hp
        simp only [List.mem_singleton] at hp
        subst hp
        intro hmem
        exact hcne (List.mem_singleton.mp hmem).symm
      | cons hq ps =>
        rw [hsp] at hp
        rcases List.mem_cons.mp hp with h | h
        · subst h
          intro hmem
          rcases List.mem_cons.mp hmem with h2 | h2
          · exact hcne h2.symm
          · exact ih hq (by rw [hsp]; exact List.mem_cons_self hq ps) h2
        · exact ih p (by rw [hsp]; exact List.mem_cons_of_mem hq h)

/-- Joining a list of parts whose head part gained a leading character. -/
theorem joinWithSep_cons_head (sep : List Char) (c : Char) (p : List Char) :
    ∀ ps, joinWithSep sep ((c :: p) :: ps) = c :: joinWithSep sep (p :: ps) := by
  intro ps
  cases ps with
  | nil => rfl
  | cons q ps' => simp [joinWithSep, List.cons_append]

/-- Splitting on a character and re-joining with it restores the input. -/
theorem joinWithSep_splitOnChar (sep : Char) : ∀ l,
    joinWithSep [sep] (splitOnChar sep l) = l := by
  intro l
  induction l with
  | nil => rfl
  | cons c rest ih =>
    by_cases hc : (c == sep) = true
    · have hceq : c = sep := by simpa using hc
      subst hceq
      simp only [splitOnChar, beq_self_eq_true, if_true]
      cases hsp : splitOnChar c rest with
      | nil => exact absurd hsp (splitOnChar_ne_nil c rest)
      | cons p ps =>
        have hj := ih
        rw [hsp] at hj
        simp [joinWithSep, hj]
    · have hc' : (c == sep) = false := by simpa using hc
      simp only [splitOnChar, hc', Bool.false_eq_true, if_false]
      cases hsp : splitOnChar sep rest with
      | nil => exact absurd hsp (splitOnChar_ne_nil sep rest)
      | cons p ps =>
        rw [joinWithSep_cons_head]
        have hj := ih
        rw [hsp] at hj
        rw [hj]

/-- Final evaluation step of the `concat` argument parser: the last literal
followed by the closing parenthesis. -/
theorem parseConcatArgs_step_done (fuel : Nat) (l content : List Char)
    (h : parseLit l = some (content, [')'])) :
    parseConcatArgs (fuel + 1) l = some content := by
  simp only [parseConcatArgs, h]

/-- Intermediate evaluation step of the `concat` argument parser: a literal
followed by a comma, optional spaces and further arguments. -/
theorem parseConcatArgs_step_comma (fuel : Nat) (l content rest2 : List Char)
    (h : parseLit l = some (content, ',' :: rest2)) :
    parseConcatArgs (fuel + 1) l =
      (parseConcatArgs fuel (rest2.dropWhile (fun c => c == ' '))).map
        (fun t => content ++ t) := by
  simp only [parseConcatArgs, h]

/-- Evaluating the rendered `concat` argument list of non-apostrophe parts
joined by the `', "'", '` separator yields the apostrophe-joined parts. -/
theorem parseConcatArgs_join :
    ∀ (parts : List (List Char)), parts ≠ [] → (∀ p ∈ parts, '\'' ∉ p) →
    ∀ fuel, parseConcatArgs (fuel + 2 * parts.length)
      ('\'' :: joinWithSep "', \"'\", '".data parts ++ ['\'', ')']) =
      some (joinWithSep ['\''] parts) := by
  intro parts
  induction parts with
  | nil => intro h; exact absurd rfl h
  | cons p ps ih =>
    intro _ hq fuel
    have hp : '\'' ∉ p := hq p (List.mem_cons_self p ps)
    cases ps with
    | nil =>
      have e : fuel + 2 * [p].length = (fuel + 1) + 1 := by simp
      rw [e]
      show parseConcatArgs ((fuel + 1) + 1) ('\'' :: (p ++ '\'' :: [')'])) =
        some (joinWithSep ['\''] [p])
      have h1 : parseLit ('\'' :: (p ++ '\'' :: [')'])) = some (p, [')']) :=
        readLit_run '\'' p [')'] hp
      rw [parseConcatArgs_step_done (fuel + 1) _ p h1]
      rfl
    | cons q ps' =>
      have e : fuel + 2 * (p :: q :: ps').length =
          ((fuel + 2 * (q :: ps').length) + 1) + 1 := by
        simp only [List.length_cons]
        omega
      rw [e]
      have hsep : "', \"'\", '".data =
          ['\'', ',', ' ', '"', '\'', '"', ',', ' ', '\''] := rfl
      have hlist : '\'' :: joinWithSep "', \"'\", '".data (p :: q :: ps') ++ ['\'', ')'] =
          '\'' :: (p ++ '\'' :: (',' :: (' ' :: ('"' :: ('\'' :: ('"' :: (',' :: (' ' ::
            ('\'' :: joinWithSep "', \"'\", '".data (q :: ps') ++ ['\'', ')']))))))))) := by
        simp [joinWithSep, hsep, List.append_assoc]
      rw [hlist]
      have h1 : parseLit ('\'' :: (p ++ '\'' :: (',' :: (' ' :: ('"' :: ('\'' :: ('"' ::
          (',' :: (' ' :: ('\'' :: joinWithSep "', \"'\", '".data (q :: ps') ++
            ['\'', ')'])))))))))) = some (p, ',' :: (' ' :: ('"' :: ('\'' :: ('"' ::
          (',' :: (' ' :: ('\'' :: joinWithSep "', \"'\", '".data (q :: ps') ++
            ['\'', ')'])))))))) :=
        readLit_run '\'' p _ hp
      rw [parseConcatArgs_step_comma ((fuel + 2 * (q :: ps').length) + 1) _ p _ h1]
      show (parseConcatArgs ((fuel + 2 * (q :: ps').length) + 1)
          ('"' :: ('\'' :: ('"' :: (',' :: (' ' ::
            ('\'' :: joinWithSep "', \"'\", '".data (q :: ps') ++
              ['\'', ')']))))))).map (fun t => p ++ t) =
        some (joinWithSep ['\''] (p :: q :: ps'))
      have h2 : parseLit ('"' :: ('\'' :: ('"' :: (',' :: (' ' ::
          ('\'' :: joinWithSep "', \"'\", '".data (q :: ps') ++ ['\'', ')'])))))) =
          some (['\''], ',' :: (' ' ::
            ('\'' :: joinWithSep "', \"'\", '".data (q :: ps') ++ ['\'', ')']))) :=
        readLit_run '"' ['\''] _ (by simp)
      rw [parseConcatArgs_step_comma (fuel + 2 * (q :: ps').length) _ ['\''] _ h2]
      show ((parseConcatArgs (fuel + 2 * (q :: ps').length)
          ('\'' :: joinWithSep "', \"'\", '".data (q :: ps') ++ ['\'', ')'])).map
            (fun t => ['\''] ++ t)).map (fun t => p ++ t) =
        some (joinWithSep ['\''] (p :: q :: ps'))
      rw [ih (by simp) (fun x hx => hq x (List.mem_cons_of_mem p hx)) fuel]
      simp [joinWithSep, List.append_assoc]

/-- The rendered argument list is long enough for the evaluator's fuel. -/
theorem joinWithSep_length_bound :
    ∀ (parts : List (List Char)), parts ≠ [] →
      2 * parts.length ≤ (joinWithSep "', \"'\", '".data parts).length + 3 := by
  intro parts
  induction parts with
  | nil => intro h; exact absurd rfl h
  | cons p ps ih =>
    intro _
    cases ps with
    | nil =>
      show 2 * (1 : Nat) ≤ p.length + 3
      omega
    | cons q ps' =>
      have hb := ih (by simp)
      rw [List.length_cons] at hb
      show 2 * (p :: q :: ps').length ≤
        (p ++ "', \"'\", '".data ++ joinWithSep "', \"'\", '".data (q :: ps')).length + 3
      rw [List.length_cons, List.length_cons, List.length_append, List.length_append]
      have hsep : ("', \"'\", '".data).length = 9 := rfl
      rw [hsep]
      omega

/-- C7: the XPath value escaper round-trips — a criterion containing both
quote kinds yields a `concat(...)`-based expression whose evaluated string
value is exactly the criterion; a criterion with a single quote but no
double quote is wrapped in double quotes; otherwise it is wrapped in single
quotes. -/
theorem escape_xpath_spec (v : String) :
    (pyContainsChar v '"' = true → pyContainsChar v '\'' = true →
      (∃ rest, (escape_xpath_value v).data = "concat(".data ++ rest) ∧
      evalXPathStringExpr (escape_xpath_value v) = some v) ∧
    (pyContainsChar v '"' = false → pyContainsChar v '\'' = true →
      escape_xpath_value v = "\"" ++ v ++ "\"") ∧
    (pyContainsChar v '\'' = false → escape_xpath_value v = "'" ++ v ++ "'") := by
  refine ⟨?_, ?_, ?_⟩
  · intro h1 h2
    have hcond : (pyContainsChar v '"' && pyContainsChar v '\'') = true := by
      simp [h1, h2]
    have hne : splitOnChar '\'' v.data ≠ [] := splitOnChar_ne_nil '\'' v.data
    have hnm : ∀ p ∈ splitOnChar '\'' v.data, '\'' ∉ p :=
      fun p hp => splitOnChar_not_mem '\'' v.data p hp
    have hesc : escape_xpath_value v = String.mk ("concat('".data ++
        joinWithSep "', \"'\", '".data (splitOnChar '\'' v.data) ++ "')".data) := by
      unfold escape_xpath_value
      rw [if_pos hcond]
    have hdata : (escape_xpath_value v).data = "concat(".data ++
        ('\'' :: joinWithSep "', \"'\", '".data (splitOnChar '\'' v.data) ++
          ['\'', ')']) := by
      rw [hesc]
      show "concat('".data ++
          joinWithSep "', \"'\", '".data (splitOnChar '\'' v.data) ++ "')".data = _
      simp [List.append_assoc]
    constructor
    · exact ⟨_, hdata⟩
    · have heval : evalXPathStringExpr (escape_xpath_value v) =
          (parseConcatArgs
            (('\'' :: joinWithSep "', \"'\", '".data (splitOnChar '\'' v.data) ++
              ['\'', ')']).length)
            ('\'' :: joinWithSep "', \"'\", '".data (splitOnChar '\'' v.data) ++
              ['\'', ')'])).map String.mk := by
        unfold evalXPathStringExpr
        rw [hdata]
        have hlen7 : ("concat(".data).length = 7 := rfl
        have htake : ("concat(".data ++
            ('\'' :: joinWithSep "', \"'\", '".data (splitOnChar '\'' v.data) ++
              ['\'', ')'])).take 7 = "concat(".data := by
          rw [← hlen7, List.take_left]
        have hdrop : ("concat(".data ++
            ('\'' :: joinWithSep "', \"'\", '".data (splitOnChar '\'' v.data) ++
              ['\'', ')'])).drop 7 =
            '\'' :: joinWithSep "', \"'\", '".data (splitOnChar '\'' v.data) ++
              ['\'', ')'] := by
          rw [← hlen7, List.drop_left]
        rw [htake, if_pos rfl, hdrop]
      rw [heval]
      have hb := joinWithSep_length_bound (splitOnChar '\'' v.data) hne
      have hlen : ('\'' :: joinWithSep "', \"'\", '".data (splitOnChar '\'' v.data) ++
          ['\'', ')']).length =
          (joinWithSep "', \"'\", '".data (splitOnChar '\'' v.data)).length + 3 := by
        rw [List.length_append, List.length_cons]
        rfl
      have hfuel : ('\'' :: joinWithSep "', \"'\", '".data (splitOnChar '\'' v.data) ++
          ['\'', ')']).length =
          (('\'' :: joinWithSep "', \"'\", '".data (splitOnChar '\'' v.data) ++
            ['\'', ')']).length - 2 * (splitOnChar '\'' v.data).length) +
            2 * (splitOnChar '\'' v.data).length := by
        omega
      rw [hfuel, parseConcatArgs_join (splitOnChar '\'' v.data) hne hnm _,
        joinWithSep_splitOnChar '\'' v.data]
      rfl
  · intro h1 h2
    simp [escape_xpath_value, h1, h2]
  · intro h2
    simp [escape_xpath_value, h2]

/-- Witness for C7 at concrete criteria exercising all three quoting
branches. -/
theorem escape_xpath_spec_witness :
    evalXPathStringExpr (escape_xpath_value "he said \"don't\"") =
      some "he said \"don't\"" ∧
    escape_xpath_value "it's" = "\"" ++ "it's" ++ "\"" ∧
    escape_xpath_value "plain" = "'" ++ "plain" ++ "'" :=
  ⟨((escape_xpath_spec "he said \"don't\"").1 rfl rfl).2,
   (escape_xpath_spec "it's").2.1 rfl rfl,
   (escape_xpath_spec "plain").2.2 rfl⟩

end Selenium2
